import Mathlib

/-!
Verification of the `places` custom component (`custom_components/places/sensor.py`)
against its natural-language specification.  The Python source is shallowly
embedded: the update-gate decision cascade, the geo-math helpers, the
reverse-geocode field extraction, the display-state selection, the snapshot
serialization and the attribute reset are each translated into Lean
definitions, and the specification's claims are settled as theorems about
those definitions.  Python floats are modelled as rationals (every IEEE
float is a rational) except for the trigonometric haversine formula, which
is modelled over the reals.
-/

namespace Places

/-- A JSON-like value, as produced by `json.loads` / consumed by `json.dump`
for the snapshot file: null, strings, numbers and objects.  Numbers are
modelled as rationals. -/
inductive Jv where
  | null : Jv
  | str : String → Jv
  | num : ℚ → Jv
  | obj : List (String × Jv) → Jv

/-- Python `int()` applied to a (rational-modelled) float: truncation toward
zero, used by `do_update` on `distance_traveled`. -/
def pyInt (q : ℚ) : ℤ := if q < 0 then ⌈q⌉ else ⌊q⌋

/-- The inputs the `do_update` gate (sensor.py lines 1092-1252) reads:
whether the current and home coordinates all parsed as floats, the GPS
accuracy (defaulted to 1 upstream when the tracker reports none), the
`initial_update` flag, the current/previous "lat,lon" location strings,
the metres moved since the last update (0 when no old coordinates exist),
and the persisted skip counter `_updateskipped`. -/
structure GateInput where
  coordsValid : Bool
  gpsAccuracy : ℚ
  initialUpdate : Bool
  currentLocation : Option String
  previousLocation : Option String
  distanceTraveled : ℚ
  updateskipped : ℕ

/-- The `proceed_with_update` decision cascade of `do_update`
(sensor.py lines 1092-1252), returning the decision together with the
value of `_updateskipped` after the cascade ran (the `< 10 m` branch
increments it; every other branch leaves it alone). -/
def gate (g : GateInput) : Bool × ℕ :=
  if ¬ g.coordsValid then (false, g.updateskipped)
  else if g.gpsAccuracy = 0 then (false, g.updateskipped)
  else if g.initialUpdate then (true, g.updateskipped)
  else if g.currentLocation = g.previousLocation then (false, g.updateskipped)
  else if 0 < pyInt g.distanceTraveled ∧ 3 < g.updateskipped then (true, g.updateskipped)
  else if pyInt g.distanceTraveled < 10 then (false, g.updateskipped + 1)
  else (true, g.updateskipped)

/-- Whether the geocode part of `do_update` runs: line 1254 guards the whole
fetch-and-update block with `if proceed_with_update and devicetracker_zone`. -/
def updateProceeds (g : GateInput) (zoneTruthy : Bool) : Bool :=
  (gate g).1 && zoneTruthy

/-- The gate composed with the skip-counter effect of the update block:
when the update proceeds (and the tracker state string is truthy),
`_reset_attributes` (line 1270, body at lines 2146-2167) runs and sets
`_updateskipped` back to 0. -/
def gateAndReset (g : GateInput) (zoneTruthy : Bool) : Bool × ℕ :=
  match gate g with
  | (p, s) => if p ∧ zoneTruthy then (p, 0) else (p, s)

/-- Python `math.radians`: degrees to radians. -/
noncomputable def radians (deg : ℝ) : ℝ := deg * (Real.pi / 180)

/-- The `haversine` method (sensor.py lines 827-841): great-circle distance in
km between two points given as decimal degrees, mean Earth radius 6371 km.
The source's parameter order `(lon1, lat1, lon2, lat2)` is kept. -/
noncomputable def haversine (lon1 lat1 lon2 lat2 : ℝ) : ℝ :=
  2 * Real.arcsin (Real.sqrt (
    Real.sin ((radians lat2 - radians lat1) / 2) ^ 2 +
    Real.cos (radians lat1) * Real.cos (radians lat2) *
      Real.sin ((radians lon2 - radians lon1) / 2) ^ 2)) * 6371

/-- The direction classification of `do_update` (sensor.py lines 1107-1123)
given the already-computed deviation, the previously stored distance from
home (`last_distance_m`) and the new distance from home (`distance_m`),
both in metres. -/
noncomputable def directionOfTravel (deviation lastDistanceM distanceM : ℝ) : String :=
  if deviation ≤ 0.2 then "stationary"
  else if distanceM < lastDistanceM then "towards home"
  else if lastDistanceM < distanceM then "away from home"
  else "stationary"

/-- The full direction computation: `do_update` calls
`self.haversine(old_latitude, old_longitude, new_latitude, new_longitude)`
(sensor.py lines 1108-1113, note the source passes latitudes into the
longitude slots) and classifies the result. -/
noncomputable def computeDirection
    (oldLatitude oldLongitude newLatitude newLongitude lastDistanceM distanceM : ℝ) :
    String :=
  directionOfTravel (haversine oldLatitude oldLongitude newLatitude newLongitude)
    lastDistanceM distanceM

/-- Lookup in a decoded JSON object (Python `dict[key]` / `key in dict`),
for the string-valued `address` and `namedetails` sub-objects. -/
def lookupStr (k : String) : List (String × String) → Option String
  | [] => none
  | (k2, v) :: rest => if k2 = k then some v else lookupStr k rest

/-- Python `str.split` with a single-character separator, on the character
list: `"".split(",") == [""]`, `"a,b".split(",") == ["a","b"]`. -/
def splitOnChar (sep : Char) : List Char → List (List Char)
  | [] => [[]]
  | c :: rest =>
    match splitOnChar sep rest with
    | [] => [[]]
    | g :: gs => if c = sep then [] :: g :: gs else (c :: g) :: gs

/-- Python `self._language.split(",")` (sensor.py line 1419). -/
def pySplitComma (s : String) : List String :=
  (splitOnChar ',' s.data).map fun cs => ⟨cs⟩

/-- The `for language in self._language.split(",")` loop of `do_update`
(sensor.py lines 1418-1424): the first configured language code with a
`name:<lang>` entry in `namedetails` overrides the accumulated place name,
and the loop breaks after the first match. -/
def nameLangLoop (langs : List String) (namedetails : List (String × String))
    (acc : Option String) : Option String :=
  match langs with
  | [] => acc
  | l :: rest =>
    match lookupStr ("name:" ++ l) namedetails with
    | some v => some v
    | none => nameLangLoop rest namedetails acc

/-- The place-name extraction of `do_update` (sensor.py lines 1406-1424):
`place_type` is the response's `type` (replaced by `addresstype` when it is
the sentinel `"yes"`); `address[place_type]` seeds the name, overridden by
`address[category]` when a `category` field names an address key, overridden
by `namedetails["name"]`, overridden by the first matching
`namedetails["name:"+lang]` over the configured language codes. -/
def resolvePlaceName (typeField addresstypeField : String) (categoryField : Option String)
    (address namedetails : List (String × String)) (language : Option String) :
    Option String :=
  let placeType := if typeField = "yes" then addresstypeField else typeField
  let n1 := lookupStr placeType address
  let n2 :=
    match categoryField with
    | some c =>
      match lookupStr c address with
      | some v => some v
      | none => n1
    | none => n1
  let n3 :=
    match lookupStr "name" namedetails with
    | some v => some v
    | none => n2
  match language with
  | none => n3
  | some langs => nameLangLoop (pySplitComma langs) namedetails n3

/-- The `Driving` prefix of the user display (sensor.py lines 1631-1632). -/
def driving_display_block (displayOptions : List String) (isDriving : Bool) :
    List String :=
  if "driving" ∈ displayOptions ∧ isDriving then ["Driving"] else []

/-- The zone part of the user display (sensor.py lines 1634-1645):
`zone_name` wins over `zone`, both suppressed by `do_not_show_not_home`. -/
def zone_display_block (displayOptions : List String) (zoneName zone : Option String) :
    List String :=
  if "zone_name" ∈ displayOptions ∧ "do_not_show_not_home" ∉ displayOptions ∧
      zoneName.isSome then zoneName.toList
  else if "zone" ∈ displayOptions ∧ "do_not_show_not_home" ∉ displayOptions ∧
      zone.isSome then zone.toList
  else []

/-- The place bundle of the user display (sensor.py lines 1649-1672). -/
def place_display_block (displayOptions : List String)
    (placeName placeCategory placeType placeNeighbourhood streetNumber street :
      Option String) : List String :=
  if "place" ∈ displayOptions then
    placeName.toList ++
    (match placeCategory with
      | some c => if ¬ c.toLower = "place" then [c] else []
      | none => []) ++
    (match placeType with
      | some t => if ¬ t.toLower = "yes" then [t] else []
      | none => []) ++
    placeNeighbourhood.toList ++ streetNumber.toList ++ street.toList
  else
    (if "street_number" ∈ displayOptions then streetNumber.toList else []) ++
    (if "street" ∈ displayOptions then street.toList else [])

/-- The `state`/`region` alternative of the user display
(sensor.py lines 1677-1680). -/
def region_display_block (displayOptions : List String) (region : Option String) :
    List String :=
  if "state" ∈ displayOptions then region.toList
  else if "region" ∈ displayOptions then region.toList
  else []

/-- The ordered `user_display` list built from the display options when the
entity is outside every zone (sensor.py lines 1629-1692).  The
`do_not_reorder` rebuild (lines 1694-1703) uses a `locals()` pattern whose
legacy semantics the spec declares unspecified; it is not modelled and the
theorems carry the hypothesis that this option is absent. -/
def buildUserDisplay (displayOptions : List String) (isDriving : Bool)
    (zoneName zone placeName placeCategory placeType placeNeighbourhood
      streetNumber street city county region postalCode country formattedAddress :
      Option String) : List String :=
  driving_display_block displayOptions isDriving ++
  zone_display_block displayOptions zoneName zone ++
  (if "place_name" ∈ displayOptions then placeName.toList else []) ++
  place_display_block displayOptions placeName placeCategory placeType
    placeNeighbourhood streetNumber street ++
  (if "city" ∈ displayOptions then city.toList else []) ++
  (if "county" ∈ displayOptions then county.toList else []) ++
  region_display_block displayOptions region ++
  (if "postal_code" ∈ displayOptions then postalCode.toList else []) ++
  (if "country" ∈ displayOptions then country.toList else []) ++
  (if "formatted_address" ∈ displayOptions then formattedAddress.toList else [])

/-- The `new_state` selection chain of `do_update` (sensor.py lines
1603-1731): an upstream `error_message` wins outright; else the
`formatted_place` option reuses the formatted place; else outside a zone the
joined `user_display` list (left unchanged when the list is empty); else the
zone name when requested, else the raw tracker zone state.  `newState0` is
the value `new_state` already holds from line 1426. -/
def newStateSelect (errorMessage : Option String) (displayOptions : List String)
    (formattedPlace : String) (inZone : Bool) (userDisplay : List String)
    (zoneName zone : Option String) (newState0 : Option String) : Option String :=
  match errorMessage with
  | some e => some e
  | none =>
    if "formatted_place" ∈ displayOptions then some formattedPlace
    else if ¬ inZone then
      if userDisplay = [] then newState0
      else some (String.intercalate ", " userDisplay)
    else if "zone_name" ∈ displayOptions ∧ zoneName.isSome then zoneName
    else if zone.isSome then zone
    else newState0

/-- Python's `"%02d" % n` for the hour/minute fields of `datetime.now()`
(both below 100): the two decimal digits. -/
def fmtTwoDigit (n : ℕ) : List Char :=
  [Nat.digitChar (n / 10), Nat.digitChar (n % 10)]

/-- The `current_time` string `"%02d:%02d" % (now.hour, now.minute)`
(sensor.py line 1735), as a character list. -/
def currentTimeChars (hour minute : ℕ) : List Char :=
  fmtTwoDigit hour ++ [':'] ++ fmtTwoDigit minute

/-- The commit of the new state into the sensor's native value
(sensor.py lines 2018-2032): with `show_time` the first `255 - 14`
characters plus a `" (since HH:MM)"` suffix, otherwise the first 255
characters; a `None` new state is stored as `None`.  Python string slicing
acts on the character sequence, modelled via `String.data`. -/
def commitState (newState : Option String) (showTime : Bool) (hour minute : ℕ) :
    Option (List Char) :=
  match newState with
  | none => none
  | some s =>
    if showTime then
      some (s.data.take (255 - 14) ++
        (" (since ".data ++ currentTimeChars hour minute ++ ")".data))
    else
      some (s.data.take 255)

/-- Modelled from the spec: the attribute key constants of `const.py`, which
is not under `src/` — only `sensor.py`, which imports them, is.  The spec's
snapshot format stores the full PlaceRecord plus the current display value as
separate entries, so the keys are modelled as distinct opaque constants. -/
inductive AttrKey where
  | name | state
  | street_number | street | city | postal_town | postal_code
  | region | state_abbr | country | county
  | formatted_address | place_type | place_name | place_category
  | place_neighbourhood | formatted_place
  | latitude_old | longitude_old | latitude | longitude
  | devicetracker_id | devicetracker_zone | devicetracker_zone_name
  | home_zone | picture | distance_km | distance_m | mtime
  | last_place_name | location_current | location_previous
  | home_latitude | home_longitude | direction | map_link | options
  | osm_id | osm_type | wikidata_id
  | osm_dict | osm_details_dict | wikidata_dict
deriving DecidableEq

/-- The per-entity mutable state of a `Places` sensor entity: the
PlaceRecord fields plus the configuration-derived attributes that
`extra_state_attributes` also emits, the native (display) value, the entity
name, and the `initial_update` / `_updateskipped` bookkeeping. -/
structure SensorState where
  name : String
  nativeValue : Option String
  street_number : Option String
  street : Option String
  city : Option String
  postal_town : Option String
  postal_code : Option String
  region : Option String
  state_abbr : Option String
  country : Option String
  county : Option String
  formatted_address : Option String
  place_type : Option String
  place_name : Option String
  place_category : Option String
  place_neighbourhood : Option String
  formatted_place : Option String
  latitude_old : Option String
  longitude_old : Option String
  latitude : Option String
  longitude : Option String
  devicetracker_id : Option String
  devicetracker_zone : Option String
  devicetracker_zone_name : Option String
  home_zone : Option String
  picture : Option String
  distance_km : Option ℚ
  distance_m : Option ℚ
  mtime : Option String
  last_place_name : Option String
  location_current : Option String
  location_previous : Option String
  home_latitude : Option String
  home_longitude : Option String
  direction : Option String
  map_link : Option String
  options : Option String
  osm_id : Option String
  osm_type : Option String
  wikidata_id : Option String
  osm_dict : Option Jv
  osm_details_dict : Option Jv
  wikidata_dict : Option Jv
  initial_update : Bool
  updateskipped : ℕ

/-- The `extra_state_attributes` property (sensor.py lines 595-683): every
non-`None` field is present in the returned dictionary under its key;
`None` fields are absent. -/
def extra_state_attributes (r : SensorState) : AttrKey → Option Jv := fun k =>
  match k with
  | .street_number => r.street_number.map Jv.str
  | .street => r.street.map Jv.str
  | .city => r.city.map Jv.str
  | .postal_town => r.postal_town.map Jv.str
  | .postal_code => r.postal_code.map Jv.str
  | .region => r.region.map Jv.str
  | .state_abbr => r.state_abbr.map Jv.str
  | .country => r.country.map Jv.str
  | .county => r.county.map Jv.str
  | .formatted_address => r.formatted_address.map Jv.str
  | .place_type => r.place_type.map Jv.str
  | .place_name => r.place_name.map Jv.str
  | .place_category => r.place_category.map Jv.str
  | .place_neighbourhood => r.place_neighbourhood.map Jv.str
  | .formatted_place => r.formatted_place.map Jv.str
  | .latitude_old => r.latitude_old.map Jv.str
  | .longitude_old => r.longitude_old.map Jv.str
  | .latitude => r.latitude.map Jv.str
  | .longitude => r.longitude.map Jv.str
  | .devicetracker_id => r.devicetracker_id.map Jv.str
  | .devicetracker_zone => r.devicetracker_zone.map Jv.str
  | .devicetracker_zone_name => r.devicetracker_zone_name.map Jv.str
  | .home_zone => r.home_zone.map Jv.str
  | .picture => r.picture.map Jv.str
  | .distance_km => r.distance_km.map Jv.num
  | .distance_m => r.distance_m.map Jv.num
  | .mtime => r.mtime.map Jv.str
  | .last_place_name => r.last_place_name.map Jv.str
  | .location_current => r.location_current.map Jv.str
  | .location_previous => r.location_previous.map Jv.str
  | .home_latitude => r.home_latitude.map Jv.str
  | .home_longitude => r.home_longitude.map Jv.str
  | .direction => r.direction.map Jv.str
  | .map_link => r.map_link.map Jv.str
  | .options => r.options.map Jv.str
  | .osm_id => r.osm_id.map Jv.str
  | .osm_type => r.osm_type.map Jv.str
  | .wikidata_id => r.wikidata_id.map Jv.str
  | .osm_dict => r.osm_dict
  | .osm_details_dict => r.osm_details_dict
  | .wikidata_dict => r.wikidata_dict
  | .name => none
  | .state => none

/-- The snapshot dictionary written to the JSON sensor file
(sensor.py lines 2109-2125): the entity name, the native value (also when
`None`), and all extra state attributes. -/
def snapshot (r : SensorState) : AttrKey → Option Jv := fun k =>
  match k with
  | .name => some (Jv.str r.name)
  | .state =>
    match r.nativeValue with
    | some s => some (Jv.str s)
    | none => some Jv.null
  | k => extra_state_attributes r k

/-- A JSON value read back as an optional string: strings survive, `null`
(and any non-string payload) becomes `None`. -/
def jvStrOpt : Jv → Option String
  | .str s => some s
  | _ => none

/-- Python `float(...)` applied to a JSON value: numbers survive; anything
a numeric coercion would reject is modelled as `none`. -/
def jvFloat : Jv → Option ℚ
  | .num q => some q
  | _ => none

/-- The `import_attributes` method (sensor.py lines 685-762): each key
present in the loaded snapshot overwrites the matching field (the distance
fields through `float(...)`), absent keys leave the field alone, and
`initial_update` is cleared.  The configuration-derived fields
(`devicetracker_id`, `home_zone`, picture, home coordinates, options) are
never imported. -/
def import_attributes (j : AttrKey → Option Jv) (r : SensorState) : SensorState :=
  { name := r.name
    nativeValue := match j .state with | some v => jvStrOpt v | none => r.nativeValue
    street_number :=
      match j .street_number with | some v => jvStrOpt v | none => r.street_number
    street := match j .street with | some v => jvStrOpt v | none => r.street
    city := match j .city with | some v => jvStrOpt v | none => r.city
    postal_town :=
      match j .postal_town with | some v => jvStrOpt v | none => r.postal_town
    postal_code :=
      match j .postal_code with | some v => jvStrOpt v | none => r.postal_code
    region := match j .region with | some v => jvStrOpt v | none => r.region
    state_abbr :=
      match j .state_abbr with | some v => jvStrOpt v | none => r.state_abbr
    country := match j .country with | some v => jvStrOpt v | none => r.country
    county := match j .county with | some v => jvStrOpt v | none => r.county
    formatted_address :=
      match j .formatted_address with
      | some v => jvStrOpt v
      | none => r.formatted_address
    place_type :=
      match j .place_type with | some v => jvStrOpt v | none => r.place_type
    place_name :=
      match j .place_name with | some v => jvStrOpt v | none => r.place_name
    place_category :=
      match j .place_category with | some v => jvStrOpt v | none => r.place_category
    place_neighbourhood :=
      match j .place_neighbourhood with
      | some v => jvStrOpt v
      | none => r.place_neighbourhood
    formatted_place :=
      match j .formatted_place with | some v => jvStrOpt v | none => r.formatted_place
    latitude_old :=
      match j .latitude_old with | some v => jvStrOpt v | none => r.latitude_old
    longitude_old :=
      match j .longitude_old with | some v => jvStrOpt v | none => r.longitude_old
    latitude := match j .latitude with | some v => jvStrOpt v | none => r.latitude
    longitude := match j .longitude with | some v => jvStrOpt v | none => r.longitude
    devicetracker_id := r.devicetracker_id
    devicetracker_zone :=
      match j .devicetracker_zone with
      | some v => jvStrOpt v
      | none => r.devicetracker_zone
    devicetracker_zone_name :=
      match j .devicetracker_zone_name with
      | some v => jvStrOpt v
      | none => r.devicetracker_zone_name
    home_zone := r.home_zone
    picture := r.picture
    distance_km :=
      match j .distance_km with | some v => jvFloat v | none => r.distance_km
    distance_m :=
      match j .distance_m with | some v => jvFloat v | none => r.distance_m
    mtime := match j .mtime with | some v => jvStrOpt v | none => r.mtime
    last_place_name :=
      match j .last_place_name with | some v => jvStrOpt v | none => r.last_place_name
    location_current :=
      match j .location_current with
      | some v => jvStrOpt v
      | none => r.location_current
    location_previous :=
      match j .location_previous with
      | some v => jvStrOpt v
      | none => r.location_previous
    home_latitude := r.home_latitude
    home_longitude := r.home_longitude
    direction := match j .direction with | some v => jvStrOpt v | none => r.direction
    map_link := match j .map_link with | some v => jvStrOpt v | none => r.map_link
    options := r.options
    osm_id := match j .osm_id with | some v => jvStrOpt v | none => r.osm_id
    osm_type := match j .osm_type with | some v => jvStrOpt v | none => r.osm_type
    wikidata_id :=
      match j .wikidata_id with | some v => jvStrOpt v | none => r.wikidata_id
    osm_dict := match j .osm_dict with | some v => some v | none => r.osm_dict
    osm_details_dict :=
      match j .osm_details_dict with | some v => some v | none => r.osm_details_dict
    wikidata_dict :=
      match j .wikidata_dict with | some v => some v | none => r.wikidata_dict
    initial_update := false
    updateskipped := r.updateskipped }

/-- The `_reset_attributes` method (sensor.py lines 2146-2167): the
geocode-derived fields are cleared, `_mtime` is set to the current time and
the skip counter is reset. -/
def reset_attributes (r : SensorState) (now : String) : SensorState :=
  { r with
    street := none
    street_number := none
    city := none
    postal_town := none
    postal_code := none
    region := none
    state_abbr := none
    country := none
    county := none
    formatted_address := none
    place_type := none
    place_name := none
    mtime := some now
    osm_id := none
    osm_type := none
    wikidata_id := none
    osm_dict := none
    osm_details_dict := none
    wikidata_dict := none
    updateskipped := 0 }

/-- With the gate's first four rules passed and movement below 10 m, the
floor of the distance governs both remaining branches. -/
theorem gate_low_movement (g : GateInput)
    (hv : g.coordsValid = true) (ha : g.gpsAccuracy ≠ 0)
    (hi : g.initialUpdate = false)
    (hl : g.currentLocation ≠ g.previousLocation)
    (hd0 : 0 ≤ g.distanceTraveled) (hd : g.distanceTraveled < 10) :
    (g.updateskipped ≤ 3 → gateAndReset g true = (false, g.updateskipped + 1)) ∧
    (3 < g.updateskipped → 1 ≤ g.distanceTraveled →
      gateAndReset g true = (true, 0)) ∧
    (3 < g.updateskipped → g.distanceTraveled < 1 →
      gateAndReset g true = (false, g.updateskipped + 1)) := by
  have hpy : pyInt g.distanceTraveled = ⌊g.distanceTraveled⌋ := by
    unfold pyInt
    exact if_neg (not_lt.mpr hd0)
  have hflt : ⌊g.distanceTraveled⌋ < 10 := by
    exact_mod_cast Int.floor_lt.mpr (by exact_mod_cast hd)
  refine ⟨?_, ?_, ?_⟩
  · intro hs
    have hnot : ¬ (0 < ⌊g.distanceTraveled⌋ ∧ 3 < g.updateskipped) := by
      rintro ⟨-, h3⟩; omega
    simp [gateAndReset, gate, hv, ha, hi, hl, hnot, hpy, hflt]
  · intro hs h1
    have hfl : 0 < ⌊g.distanceTraveled⌋ := by
      have : (1 : ℤ) ≤ ⌊g.distanceTraveled⌋ := Int.le_floor.mpr (by exact_mod_cast h1)
      omega
    simp [gateAndReset, gate, hv, ha, hi, hl, hpy, hfl, hs]
  · intro hs h1
    have hfl : ¬ (0 < ⌊g.distanceTraveled⌋) := by
      have : ⌊g.distanceTraveled⌋ < 1 := Int.floor_lt.mpr (by exact_mod_cast h1)
      omega
    have hnot : ¬ (0 < ⌊g.distanceTraveled⌋ ∧ 3 < g.updateskipped) := by
      rintro ⟨h0, -⟩; exact hfl h0
    simp [gateAndReset, gate, hv, ha, hi, hl, hnot, hpy, hflt]

/-- Witness: at movement 5 m with skip count 2 the gate skips and increments. -/
theorem gate_low_movement_witness :
    gateAndReset ⟨true, 1, false, some "40.0,-75.0", some "40.00004,-75.0", 5, 2⟩ true
      = (false, 3) :=
  (gate_low_movement ⟨true, 1, false, some "40.0,-75.0", some "40.00004,-75.0", 5, 2⟩
    rfl (by norm_num) rfl (by decide) (by norm_num) (by norm_num)).1 (by norm_num)

/-- Counterexample to the claim as stated: movement of half a metre (a changed
location string, below 10 m) with skip count 4 (> 3) does not proceed, because
the anti-starvation branch also requires `int(distance_traveled) > 0`; the
skip count is incremented to 5 instead of being reset to 0. -/
theorem gate_hysteresis_counterexample :
    ((1 : ℚ)/2) < 10 ∧ 3 < 4 ∧
    gateAndReset ⟨true, 1, false, some "40.0,-75.0", some "40.000004,-75.0", 1/2, 4⟩ true
      = (false, 5) := by
  have hf : ⌊(1/2 : ℚ)⌋ = 0 := by
    rw [Int.floor_eq_zero_iff]
    constructor <;> norm_num
  have hpy : pyInt (1/2 : ℚ) = 0 := by
    rw [pyInt, if_neg (by norm_num), hf]
  have hls : (some "40.0,-75.0" : Option String) ≠ some "40.000004,-75.0" := by decide
  refine ⟨by norm_num, by norm_num, ?_⟩
  norm_num [gateAndReset, gate, hpy, hls]

/-- When the display options request the zone (and it is not suppressed),
the user display list is never empty, whatever the other fields. -/
theorem zone_display_block_ne_nil (opts : List String) (zoneName : Option String)
    (z : String) (h1 : "zone" ∈ opts) (h2 : "do_not_show_not_home" ∉ opts) :
    zone_display_block opts zoneName (some z) ≠ [] := by
  unfold zone_display_block
  rcases zoneName with _ | zn
  · rw [if_neg (fun h => by simpa using h.2.2), if_pos ⟨h1, h2, rfl⟩]
    simp
  · by_cases hzn : "zone_name" ∈ opts
    · rw [if_pos ⟨hzn, h2, rfl⟩]
      simp
    · rw [if_neg (fun h => hzn h.1), if_pos ⟨h1, h2, rfl⟩]
      simp

/-- For a gated update with valid coordinates and non-zero accuracy, the
`initial_update` flag forces the gate to proceed, whatever the movement, the
location strings and the skip count; and when the geocode response decodes,
the selected display state is non-null provided the entity is in a zone or
the display options include the zone token (the `do_not_reorder` legacy
branch, whose semantics the spec leaves unspecified, excluded). -/
theorem initial_update_proceeds (g : GateInput)
    (hv : g.coordsValid = true) (ha : g.gpsAccuracy ≠ 0)
    (hi : g.initialUpdate = true) :
    (gate g = (true, g.updateskipped) ∧ updateProceeds g true = true) ∧
    (∀ (e : Option String) (opts : List String) (fp : String)
      (inZone isDriving : Bool) (zoneName : Option String) (z : String)
      (placeName placeCategory placeType placeNeighbourhood streetNumber street
        city county region postalCode country formattedAddress ns0 : Option String),
      "do_not_reorder" ∉ opts →
      (inZone = true ∨ ("zone" ∈ opts ∧ "do_not_show_not_home" ∉ opts)) →
      (newStateSelect e opts fp inZone
        (buildUserDisplay opts isDriving zoneName (some z) placeName placeCategory
          placeType placeNeighbourhood streetNumber street city county region
          postalCode country formattedAddress)
        zoneName (some z) ns0).isSome = true) := by
  constructor
  · constructor
    · simp [gate, hv, ha, hi]
    · simp [updateProceeds, gate, hv, ha, hi]
  · intro e opts fp inZone isDriving zoneName z placeName placeCategory placeType
      placeNeighbourhood streetNumber street city county region postalCode country
      formattedAddress ns0 hnr hOr
    rcases e with _ | err
    · by_cases hfp : "formatted_place" ∈ opts
      · simp [newStateSelect, hfp]
      · by_cases hIZ : inZone = true
        · by_cases hzn : "zone_name" ∈ opts ∧ zoneName.isSome
          · simp [newStateSelect, hfp, hIZ, hzn.1, hzn.2]
          · simp [newStateSelect, hfp, hIZ, hzn]
        · have hIZ0 : inZone = false := by simpa using hIZ
          rcases hOr with hOr | ⟨hz1, hz2⟩
          · exact absurd hOr hIZ
          · have hne := zone_display_block_ne_nil opts zoneName z hz1 hz2
            have hud : buildUserDisplay opts isDriving zoneName (some z) placeName
                placeCategory placeType placeNeighbourhood streetNumber street city
                county region postalCode country formattedAddress ≠ [] := by
              intro h
              rw [buildUserDisplay] at h
              simp only [List.append_eq_nil] at h
              exact hne (by tauto)
            simp [newStateSelect, hfp, hIZ0, hud]
    · simp [newStateSelect]

/-- Witness: the very first update proceeds even with zero movement and an
unchanged location string, and with the `zone` display option the selected
display state is non-null. -/
theorem initial_update_proceeds_witness :
    (gate ⟨true, 1, true, some "40.0,-75.0", some "40.0,-75.0", 0, 9⟩ = (true, 9) ∧
      updateProceeds ⟨true, 1, true, some "40.0,-75.0", some "40.0,-75.0", 0, 9⟩ true
        = true) ∧
    (newStateSelect none ["zone"] "" false
      (buildUserDisplay ["zone"] false none (some "not_home") none none none none
        none none none none none none none none)
      none (some "not_home") none).isSome = true :=
  ⟨(initial_update_proceeds ⟨true, 1, true, some "40.0,-75.0", some "40.0,-75.0", 0, 9⟩
      rfl (by norm_num) rfl).1,
    (initial_update_proceeds ⟨true, 1, true, some "40.0,-75.0", some "40.0,-75.0", 0, 9⟩
      rfl (by norm_num) rfl).2 none ["zone"] "" false false none "not_home"
      none none none none none none none none none none none none none
      (by decide) (Or.inr ⟨by decide, by decide⟩)⟩

/-- Counterexample to the claim as stated, in both halves.  First: on the
very first update (`initial_update = True`) with valid coordinates but GPS
accuracy exactly 0, the gate does not proceed — the accuracy rule is checked
before the initial-update rule.  Second: a proceeding first update whose
geocode call succeeds (decoded response, no `error_message`, place name and
city extracted) still commits a null display state when the entity is
outside every zone and the display options list is empty — nothing is
appended to `user_display`, `new_state` keeps its initial `None`, and the
sensor stores `None`. -/
theorem initial_update_claim_counterexample :
    (⟨true, 0, true, some "40.0,-75.0", some "41.0,-75.0", 5000, 0⟩ : GateInput).initialUpdate
        = true ∧
    gate ⟨true, 0, true, some "40.0,-75.0", some "41.0,-75.0", 5000, 0⟩ = (false, 0) ∧
    updateProceeds ⟨true, 0, true, some "40.0,-75.0", some "41.0,-75.0", 5000, 0⟩ true
        = false ∧
    newStateSelect none [] "Central Park, Springfield, IL" false
        (buildUserDisplay [] false none (some "not_home") (some "Central Park") none
          none none none none (some "Springfield") none none none none none)
        none (some "not_home") none = none ∧
    commitState
        (newStateSelect none [] "Central Park, Springfield, IL" false
          (buildUserDisplay [] false none (some "not_home") (some "Central Park") none
            none none none none (some "Springfield") none none none none none)
          none (some "not_home") none)
        false 12 30 = none := by
  refine ⟨rfl, ?_, ?_, ?_, ?_⟩ <;> decide

/-- GPS accuracy exactly 0 makes the gate refuse the update regardless of
every other input, leaving the skip counter untouched, and the geocode
request block is not entered. -/
theorem accuracy_zero_blocks (g : GateInput) (z : Bool)
    (ha : g.gpsAccuracy = 0) :
    gate g = (false, g.updateskipped) ∧ updateProceeds g z = false := by
  have hg : gate g = (false, g.updateskipped) := by
    cases hc : g.coordsValid <;> simp [gate, hc, ha]
  exact ⟨hg, by simp [updateProceeds, hg]⟩

/-- Witness: accuracy 0 blocks an update that moved 5 km. -/
theorem accuracy_zero_blocks_witness :
    gate ⟨true, 0, false, some "40.0,-75.0", some "41.0,-75.0", 5000, 2⟩ = (false, 2) ∧
    updateProceeds ⟨true, 0, false, some "40.0,-75.0", some "41.0,-75.0", 5000, 2⟩ true
      = false :=
  accuracy_zero_blocks ⟨true, 0, false, some "40.0,-75.0", some "41.0,-75.0", 5000, 2⟩
    true rfl

/-- The haversine of a point with itself vanishes: both angle differences are
zero, so the formula collapses to `2 * arcsin (sqrt 0) * 6371 = 0`. -/
theorem haversine_self (lon lat : ℝ) : haversine lon lat lon lat = 0 := by
  unfold haversine
  simp

/-- The haversine formula is symmetric in its two points: squared sines of
negated differences agree and the cosine product commutes. -/
theorem haversine_comm (lon1 lat1 lon2 lat2 : ℝ) :
    haversine lon1 lat1 lon2 lat2 = haversine lon2 lat2 lon1 lat1 := by
  unfold haversine
  have h : ∀ x y : ℝ, Real.sin ((x - y) / 2) ^ 2 = Real.sin ((y - x) / 2) ^ 2 := by
    intro x y
    rw [show (x - y) / 2 = -((y - x) / 2) by ring, Real.sin_neg]
    ring
  rw [h (radians lat2) (radians lat1), h (radians lon2) (radians lon1),
    mul_comm (Real.cos (radians lat1)) (Real.cos (radians lat2))]

/-- The `haversine` method returns 0 on identical points and is symmetric in
its two coordinate pairs. -/
theorem haversine_identity_and_symmetry :
    (∀ x y : ℝ, haversine x y x y = 0) ∧
    (∀ a b c d : ℝ, haversine a b c d = haversine c d a b) :=
  ⟨haversine_self, haversine_comm⟩

/-- Direction classification: a deviation of at most 0.2 km is `stationary`;
otherwise a smaller new distance from home is `towards home`, a larger one
`away from home`, and an equal one `stationary`.  The deviation is the value
the source computes, `self.haversine(old_lat, old_lon, new_lat, new_lon)`. -/
theorem direction_classification (oldLat oldLon newLat newLon lastM newM : ℝ) :
    (haversine oldLat oldLon newLat newLon ≤ 0.2 →
      computeDirection oldLat oldLon newLat newLon lastM newM = "stationary") ∧
    (0.2 < haversine oldLat oldLon newLat newLon → newM < lastM →
      computeDirection oldLat oldLon newLat newLon lastM newM = "towards home") ∧
    (0.2 < haversine oldLat oldLon newLat newLon → lastM < newM →
      computeDirection oldLat oldLon newLat newLon lastM newM = "away from home") ∧
    (0.2 < haversine oldLat oldLon newLat newLon → lastM = newM →
      computeDirection oldLat oldLon newLat newLon lastM newM = "stationary") := by
  unfold computeDirection directionOfTravel
  refine ⟨fun h => if_pos h, fun h h2 => ?_, fun h h2 => ?_, fun h h2 => ?_⟩
  · rw [if_neg (not_le.mpr h), if_pos h2]
  · rw [if_neg (not_le.mpr h), if_neg (lt_asymm h2), if_pos h2]
  · rw [if_neg (not_le.mpr h), if_neg (by rw [h2]; exact lt_irrefl _),
      if_neg (by rw [h2]; exact lt_irrefl _)]

/-- Witness: identical old and new positions deviate by 0 km, hence
`stationary`. -/
theorem direction_classification_witness :
    computeDirection 1 2 1 2 5 3 = "stationary" :=
  (direction_classification 1 2 1 2 5 3).1 (by rw [haversine_self]; norm_num)

/-- The language loop is a first-match search over the configured codes,
falling back to the accumulated name. -/
theorem nameLangLoop_eq (langs : List String) (nd : List (String × String))
    (acc : Option String) :
    nameLangLoop langs nd acc =
      ((langs.findSome? fun l => lookupStr ("name:" ++ l) nd) <|> acc) := by
  induction langs with
  | nil => simp [nameLangLoop]
  | cons l ls ih =>
    cases h : lookupStr ("name:" ++ l) nd with
    | none => simp [nameLangLoop, List.findSome?_cons, h, ih]
    | some v => simp [nameLangLoop, List.findSome?_cons, h]

/-- Place-name resolution is the priority chain: the first configured
language hit in `namedetails` wins, else the bare `namedetails["name"]`,
else `address[category]`, else `address[place_type]`; and concretely, with
namedetails holding "name": "Central Park" and "name:fr": "Parc Central"
under language "fr", the name resolves to "Parc Central". -/
theorem place_name_override_chain (typeField addresstypeField : String)
    (categoryField : Option String) (address namedetails : List (String × String))
    (langs : String) :
    resolvePlaceName typeField addresstypeField categoryField address namedetails
        (some langs) =
      (((pySplitComma langs).findSome? fun l => lookupStr ("name:" ++ l) namedetails) <|>
        (lookupStr "name" namedetails <|>
          ((categoryField.bind fun c => lookupStr c address) <|>
            lookupStr (if typeField = "yes" then addresstypeField else typeField)
              address))) ∧
    resolvePlaceName "park" "park" none []
        [("name", "Central Park"), ("name:fr", "Parc Central")] (some "fr") =
      some "Parc Central" := by
  constructor
  · simp only [resolvePlaceName]
    rw [nameLangLoop_eq]
    rcases hn : lookupStr "name" namedetails with _ | v <;>
      rcases categoryField with _ | c <;>
      simp [hn]
    rcases hc : lookupStr c address with _ | w <;> simp [hc]
  · rfl

/-- An upstream `error_message` field becomes the new display state verbatim,
whatever the display options, the formatted place, the zone situation and the
built user display. -/
theorem error_message_wins (e : String) (displayOptions : List String)
    (formattedPlace : String) (inZone : Bool) (userDisplay : List String)
    (zoneName zone newState0 : Option String) :
    newStateSelect (some e) displayOptions formattedPlace inZone userDisplay
      zoneName zone newState0 = some e := rfl

/-- Snapshot round trip: importing the serialized snapshot reproduces every
non-null PlaceRecord field exactly, and leaves a null field at the importing
record's prior value; the native value (always serialized, null included)
round-trips unconditionally. -/
theorem snapshot_round_trip (r r0 : SensorState) :
    (import_attributes (snapshot r) r0).nativeValue = r.nativeValue ∧
    (import_attributes (snapshot r) r0).street_number = (r.street_number <|> r0.street_number) ∧
    (import_attributes (snapshot r) r0).street = (r.street <|> r0.street) ∧
    (import_attributes (snapshot r) r0).city = (r.city <|> r0.city) ∧
    (import_attributes (snapshot r) r0).postal_town = (r.postal_town <|> r0.postal_town) ∧
    (import_attributes (snapshot r) r0).postal_code = (r.postal_code <|> r0.postal_code) ∧
    (import_attributes (snapshot r) r0).region = (r.region <|> r0.region) ∧
    (import_attributes (snapshot r) r0).state_abbr = (r.state_abbr <|> r0.state_abbr) ∧
    (import_attributes (snapshot r) r0).country = (r.country <|> r0.country) ∧
    (import_attributes (snapshot r) r0).county = (r.county <|> r0.county) ∧
    (import_attributes (snapshot r) r0).formatted_address = (r.formatted_address <|> r0.formatted_address) ∧
    (import_attributes (snapshot r) r0).place_type = (r.place_type <|> r0.place_type) ∧
    (import_attributes (snapshot r) r0).place_name = (r.place_name <|> r0.place_name) ∧
    (import_attributes (snapshot r) r0).place_category = (r.place_category <|> r0.place_category) ∧
    (import_attributes (snapshot r) r0).place_neighbourhood = (r.place_neighbourhood <|> r0.place_neighbourhood) ∧
    (import_attributes (snapshot r) r0).formatted_place = (r.formatted_place <|> r0.formatted_place) ∧
    (import_attributes (snapshot r) r0).osm_id = (r.osm_id <|> r0.osm_id) ∧
    (import_attributes (snapshot r) r0).osm_type = (r.osm_type <|> r0.osm_type) ∧
    (import_attributes (snapshot r) r0).wikidata_id = (r.wikidata_id <|> r0.wikidata_id) ∧
    (import_attributes (snapshot r) r0).last_place_name = (r.last_place_name <|> r0.last_place_name) ∧
    (import_attributes (snapshot r) r0).direction = (r.direction <|> r0.direction) ∧
    (import_attributes (snapshot r) r0).map_link = (r.map_link <|> r0.map_link) ∧
    (import_attributes (snapshot r) r0).location_current = (r.location_current <|> r0.location_current) ∧
    (import_attributes (snapshot r) r0).location_previous = (r.location_previous <|> r0.location_previous) ∧
    (import_attributes (snapshot r) r0).mtime = (r.mtime <|> r0.mtime) ∧
    (import_attributes (snapshot r) r0).distance_km = (r.distance_km <|> r0.distance_km) ∧
    (import_attributes (snapshot r) r0).distance_m = (r.distance_m <|> r0.distance_m) ∧
    (import_attributes (snapshot r) r0).osm_dict = (r.osm_dict <|> r0.osm_dict) ∧
    (import_attributes (snapshot r) r0).osm_details_dict = (r.osm_details_dict <|> r0.osm_details_dict) ∧
    (import_attributes (snapshot r) r0).wikidata_dict = (r.wikidata_dict <|> r0.wikidata_dict) := by
  refine ⟨?_, ?_, ?_, ?_, ?_, ?_, ?_, ?_, ?_, ?_, ?_, ?_, ?_, ?_, ?_, ?_, ?_, ?_, ?_, ?_, ?_, ?_, ?_, ?_, ?_, ?_, ?_, ?_, ?_, ?_⟩
  · rcases h : r.nativeValue with _ | v <;>
      simp [import_attributes, snapshot, extra_state_attributes, jvStrOpt, jvFloat, h]
  · rcases h : r.street_number with _ | v <;>
      simp [import_attributes, snapshot, extra_state_attributes, jvStrOpt, jvFloat, h]
  · rcases h : r.street with _ | v <;>
      simp [import_attributes, snapshot, extra_state_attributes, jvStrOpt, jvFloat, h]
  · rcases h : r.city with _ | v <;>
      simp [import_attributes, snapshot, extra_state_attributes, jvStrOpt, jvFloat, h]
  · rcases h : r.postal_town with _ | v <;>
      simp [import_attributes, snapshot, extra_state_attributes, jvStrOpt, jvFloat, h]
  · rcases h : r.postal_code with _ | v <;>
      simp [import_attributes, snapshot, extra_state_attributes, jvStrOpt, jvFloat, h]
  · rcases h : r.region with _ | v <;>
      simp [import_attributes, snapshot, extra_state_attributes, jvStrOpt, jvFloat, h]
  · rcases h : r.state_abbr with _ | v <;>
      simp [import_attributes, snapshot, extra_state_attributes, jvStrOpt, jvFloat, h]
  · rcases h : r.country with _ | v <;>
      simp [import_attributes, snapshot, extra_state_attributes, jvStrOpt, jvFloat, h]
  · rcases h : r.county with _ | v <;>
      simp [import_attributes, snapshot, extra_state_attributes, jvStrOpt, jvFloat, h]
  · rcases h : r.formatted_address with _ | v <;>
      simp [import_attributes, snapshot, extra_state_attributes, jvStrOpt, jvFloat, h]
  · rcases h : r.place_type with _ | v <;>
      simp [import_attributes, snapshot, extra_state_attributes, jvStrOpt, jvFloat, h]
  · rcases h : r.place_name with _ | v <;>
      simp [import_attributes, snapshot, extra_state_attributes, jvStrOpt, jvFloat, h]
  · rcases h : r.place_category with _ | v <;>
      simp [import_attributes, snapshot, extra_state_attributes, jvStrOpt, jvFloat, h]
  · rcases h : r.place_neighbourhood with _ | v <;>
      simp [import_attributes, snapshot, extra_state_attributes, jvStrOpt, jvFloat, h]
  · rcases h : r.formatted_place with _ | v <;>
      simp [import_attributes, snapshot, extra_state_attributes, jvStrOpt, jvFloat, h]
  · rcases h : r.osm_id with _ | v <;>
      simp [import_attributes, snapshot, extra_state_attributes, jvStrOpt, jvFloat, h]
  · rcases h : r.osm_type with _ | v <;>
      simp [import_attributes, snapshot, extra_state_attributes, jvStrOpt, jvFloat, h]
  · rcases h : r.wikidata_id with _ | v <;>
      simp [import_attributes, snapshot, extra_state_attributes, jvStrOpt, jvFloat, h]
  · rcases h : r.last_place_name with _ | v <;>
      simp [import_attributes, snapshot, extra_state_attributes, jvStrOpt, jvFloat, h]
  · rcases h : r.direction with _ | v <;>
      simp [import_attributes, snapshot, extra_state_attributes, jvStrOpt, jvFloat, h]
  · rcases h : r.map_link with _ | v <;>
      simp [import_attributes, snapshot, extra_state_attributes, jvStrOpt, jvFloat, h]
  · rcases h : r.location_current with _ | v <;>
      simp [import_attributes, snapshot, extra_state_attributes, jvStrOpt, jvFloat, h]
  · rcases h : r.location_previous with _ | v <;>
      simp [import_attributes, snapshot, extra_state_attributes, jvStrOpt, jvFloat, h]
  · rcases h : r.mtime with _ | v <;>
      simp [import_attributes, snapshot, extra_state_attributes, jvStrOpt, jvFloat, h]
  · rcases h : r.distance_km with _ | v <;>
      simp [import_attributes, snapshot, extra_state_attributes, jvStrOpt, jvFloat, h]
  · rcases h : r.distance_m with _ | v <;>
      simp [import_attributes, snapshot, extra_state_attributes, jvStrOpt, jvFloat, h]
  · rcases h : r.osm_dict with _ | v <;>
      simp [import_attributes, snapshot, extra_state_attributes, jvStrOpt, jvFloat, h]
  · rcases h : r.osm_details_dict with _ | v <;>
      simp [import_attributes, snapshot, extra_state_attributes, jvStrOpt, jvFloat, h]
  · rcases h : r.wikidata_dict with _ | v <;>
      simp [import_attributes, snapshot, extra_state_attributes, jvStrOpt, jvFloat, h]

/-- Frame property of `_reset_attributes`: exactly the geocode-derived
fields are cleared to `None`, `_mtime` is set to the current time, the skip
counter resets, and every other field (`last_place_name`, the distance
history and the rest of the record) is untouched. -/
theorem reset_attributes_frame (r : SensorState) (now : String) :
    (reset_attributes r now).street = none ∧
    (reset_attributes r now).street_number = none ∧
    (reset_attributes r now).city = none ∧
    (reset_attributes r now).postal_town = none ∧
    (reset_attributes r now).postal_code = none ∧
    (reset_attributes r now).region = none ∧
    (reset_attributes r now).state_abbr = none ∧
    (reset_attributes r now).country = none ∧
    (reset_attributes r now).county = none ∧
    (reset_attributes r now).formatted_address = none ∧
    (reset_attributes r now).place_type = none ∧
    (reset_attributes r now).place_name = none ∧
    (reset_attributes r now).osm_id = none ∧
    (reset_attributes r now).osm_type = none ∧
    (reset_attributes r now).wikidata_id = none ∧
    (reset_attributes r now).osm_dict = none ∧
    (reset_attributes r now).osm_details_dict = none ∧
    (reset_attributes r now).wikidata_dict = none ∧
    (reset_attributes r now).mtime = some now ∧
    (reset_attributes r now).updateskipped = 0 ∧
    (reset_attributes r now).last_place_name = r.last_place_name ∧
    (reset_attributes r now).distance_km = r.distance_km ∧
    (reset_attributes r now).distance_m = r.distance_m ∧
    (reset_attributes r now).place_category = r.place_category ∧
    (reset_attributes r now).place_neighbourhood = r.place_neighbourhood ∧
    (reset_attributes r now).formatted_place = r.formatted_place ∧
    (reset_attributes r now).nativeValue = r.nativeValue ∧
    (reset_attributes r now).name = r.name ∧
    (reset_attributes r now).latitude = r.latitude ∧
    (reset_attributes r now).longitude = r.longitude ∧
    (reset_attributes r now).latitude_old = r.latitude_old ∧
    (reset_attributes r now).longitude_old = r.longitude_old ∧
    (reset_attributes r now).devicetracker_id = r.devicetracker_id ∧
    (reset_attributes r now).devicetracker_zone = r.devicetracker_zone ∧
    (reset_attributes r now).devicetracker_zone_name = r.devicetracker_zone_name ∧
    (reset_attributes r now).home_zone = r.home_zone ∧
    (reset_attributes r now).picture = r.picture ∧
    (reset_attributes r now).location_current = r.location_current ∧
    (reset_attributes r now).location_previous = r.location_previous ∧
    (reset_attributes r now).home_latitude = r.home_latitude ∧
    (reset_attributes r now).home_longitude = r.home_longitude ∧
    (reset_attributes r now).direction = r.direction ∧
    (reset_attributes r now).map_link = r.map_link ∧
    (reset_attributes r now).options = r.options ∧
    (reset_attributes r now).initial_update = r.initial_update := by
  exact ⟨rfl, rfl, rfl, rfl, rfl, rfl, rfl, rfl, rfl, rfl, rfl, rfl, rfl, rfl, rfl, rfl, rfl, rfl, rfl, rfl, rfl, rfl, rfl, rfl, rfl, rfl, rfl, rfl, rfl, rfl, rfl, rfl, rfl, rfl, rfl, rfl, rfl, rfl, rfl, rfl, rfl, rfl, rfl, rfl, rfl⟩

/-- Committing a non-null new state stores at most 255 characters: without
`show_time` the first 255 characters, with `show_time` the first `255 - 14`
characters followed by the 14-character `" (since HH:MM)"` suffix; a null
new state stays null. -/
theorem commit_state_truncation (s : String) (hour minute : ℕ) :
    commitState (some s) false hour minute = some (s.data.take 255) ∧
    (s.data.take 255).length ≤ 255 ∧
    commitState (some s) true hour minute =
      some (s.data.take (255 - 14) ++
        (" (since ".data ++ currentTimeChars hour minute ++ ")".data)) ∧
    (" (since ".data ++ currentTimeChars hour minute ++ ")".data).length = 14 ∧
    (s.data.take (255 - 14) ++
      (" (since ".data ++ currentTimeChars hour minute ++ ")".data)).length ≤ 255 ∧
    commitState none false hour minute = none := by
  have htc : (currentTimeChars hour minute).length = 5 := rfl
  have hsuf : (" (since ".data ++ currentTimeChars hour minute ++ ")".data).length
      = 14 := by
    rw [List.length_append, List.length_append, htc]
    rfl
  refine ⟨rfl, ?_, rfl, hsuf, ?_, rfl⟩
  · simp [List.length_take]
  · rw [List.length_append, hsuf, List.length_take]
    have h := min_le_left (255 - 14) s.data.length
    omega

end Places
